import Mathlib

/-!
Shallow embedding of the streak-aware activity-classification pipeline
(source: evaluator.py and both.py).

Modelling conventions:
* Python values that may be a string or a pandas missing value (NaN) are
  modelled by `PyVal`; Python `str(x)` is `pyFormat`, and `x.strip()` is
  `pyStrip`, which raises `AttributeError` on a non-string, as in Python.
* Classifications are JSON objects whose field order is observable
  (`dict` insertion order matters to `res.values()`), so they are modelled
  as ordered association lists `ClsDict`.
* The on-disk classification cache keyed by `sha1(sentence)` is modelled as
  an association list keyed by the sentence itself: the spec treats hash
  collisions as impossible, so the key is in bijection with the sentence.
* The external LLM call (`call_llm`) is an oracle parameter: an
  `Except String ClsDict` (error = the exception the call would raise).
* Fallible Python code is embedded in `Except String`; `Except.error` marks
  an uncaught Python exception propagating to the caller.
-/

/-- Python `s.startswith(p)` over character lists (structural, so that
the kernel can evaluate it on literals). -/
def charsStart : List Char → List Char → Bool
  | _, [] => true
  | [], _ :: _ => false
  | c :: cs, d :: ds => c == d && charsStart cs ds

/-- Python `s.startswith(p)`. -/
def pyStartsWith (s p : String) : Bool := charsStart s.data p.data

/-- The characters up to the first pipe. -/
def firstField : List Char → List Char
  | [] => []
  | c :: cs => if c == '|' then [] else c :: firstField cs

/-- Python `s.split("|")[0]`. -/
def pySplitHead (s : String) : String := ⟨firstField s.data⟩

/-- Python `s.strip()`: whitespace removed from both ends. -/
def pyTrim (s : String) : String :=
  ⟨((s.data.dropWhile Char.isWhitespace).reverse.dropWhile Char.isWhitespace).reverse⟩

/-- A Python value that is either a string or a non-string scalar such as
the float NaN produced by pandas for a missing CSV cell. -/
inductive PyVal where
  | pstr (s : String)
  | pnan
deriving DecidableEq, Repr

/-- Python `str(x)` as used by f-string interpolation: strings unchanged,
NaN renders as "nan". -/
def pyFormat : PyVal → String
  | .pstr s => s
  | .pnan => "nan"

/-- Python `x.strip()`: trims whitespace on a string, raises
AttributeError on a non-string value. -/
def pyStrip : PyVal → Except String String
  | .pstr s => .ok (pyTrim s)
  | .pnan => .error "AttributeError"

/-- `first_clause(text)`: `text.split("|")[0] if isinstance(text, str) else text`. -/
def first_clause : PyVal → PyVal
  | .pstr s => .pstr (pySplitHead s)
  | .pnan => .pnan

/-- One raw event row: `(timestamp, event, details)`.  `details` may be a
missing value (NaN) when the CSV cell is empty. -/
structure Row where
  timestamp : String
  event : String
  details : PyVal
deriving DecidableEq, Repr

/-- `sentence_from_row(row)` from the source: first-match-wins on the
`event` field; the `app_switch` and `app_usage` branches call `.strip()`
on the first clause, which raises when `details` is not a string. -/
def sentence_from_row (row : Row) : Except String String :=
  if pyStartsWith row.event "browser_tab" then
    .ok ("Visited \"" ++ pyFormat (first_clause row.details) ++ "\" in browser")
  else if pyStartsWith row.event "app_switch" then
    (pyStrip (first_clause row.details)).map (fun f => "Switched to " ++ f)
  else if pyStartsWith row.event "app_usage" then
    (pyStrip (first_clause row.details)).map (fun f => "Used " ++ f)
  else
    .ok row.event

/-- A scalar inside a classification JSON object. -/
inductive CVal where
  | s (v : String)
  | i (v : Int)
deriving DecidableEq, Repr

/-- A classification as returned by `json.loads`: an insertion-ordered
dictionary.  Field order is observable through `dict.values()`. -/
abbrev ClsDict := List (String × CVal)

/-- The fixed fallback classification literal
`{"category": "unknown", "score": 0, "reason": "llm_error"}`. -/
def fallbackCls : ClsDict :=
  [("category", .s "unknown"), ("score", .i 0), ("reason", .s "llm_error")]

/-- Python `d[k]` lookup (first entry with the key, as in a dict). -/
def dget (d : ClsDict) (k : String) : Option CVal :=
  (d.find? (fun p => p.1 == k)).map (fun p => p.2)

/-- Python `d.values()`: the values in insertion order. -/
def dvalues (d : ClsDict) : List CVal := d.map (fun p => p.2)

/-- The durable cache directory: one stored classification per sentence
(the sha1 content-hash key is modelled by the sentence itself). -/
abbrev Cache := List (String × ClsDict)

def cacheLookup (c : Cache) (s : String) : Option ClsDict :=
  (c.find? (fun p => p.1 == s)).map (fun p => p.2)

/-- `classify(activity)` from the source, with the external `call_llm`
outcome passed as the oracle `llm`.  Returns the classification, the new
cache state, and whether the service call was attempted (cache miss). -/
def classify (cache : Cache) (s : String) (llm : Except String ClsDict) :
    ClsDict × Cache × Bool :=
  match cacheLookup cache s with
  | some v => (v, cache, false)
  | none =>
      let result :=
        match llm with
        | .ok r => r
        | .error _ => fallbackCls
      (result, (s, result) :: cache, true)

/-- `classify` embedded in the exception monad: every internal step that
could raise is explicit.  The `try/except Exception` around `call_llm`
is the `match` on `llm`: an `.error` outcome is caught and replaced by
the fallback, never re-raised. -/
def classifyE (cache : Cache) (s : String) (llm : Except String ClsDict) :
    Except String (ClsDict × Cache × Bool) :=
  match cacheLookup cache s with
  | some v => Except.ok (v, cache, false)
  | none =>
      let result :=
        match llm with
        | .ok r => r
        | .error _ => fallbackCls
      Except.ok (result, (s, result) :: cache, true)

/-- The Classifier Cache operation `get_or_compute(sentence, compute)`:
the cache discipline of `classify`, generic in the computation.  The
returned Bool records whether `compute` was invoked. -/
def get_or_compute (cache : Cache) (s : String) (compute : Unit → ClsDict) :
    ClsDict × Cache × Bool :=
  match cacheLookup cache s with
  | some v => (v, cache, false)
  | none =>
      let r := compute ()
      (r, (s, r) :: cache, true)

/-! ## Streak tracker -/

def POS_THRESH : Int := 4
def NEG_THRESH : Int := -4
def STREAK_LEN : Int := 3

inductive Trend where
  | neutral
  | good
  | bad
deriving DecidableEq, Repr

/-- One notification side effect fired by the tracker. -/
inductive Notif where
  | sustainedGood
  | sustainedBad (sentence reason : String)
  | goodBroken
  | badReversed
deriving DecidableEq, Repr

/-- The tracker state: `pos`/`neg` are the consecutive good/bad counters
(Python ints, so modelled as `Int`), `state` the notified trend. -/
structure Streak where
  pos : Int
  neg : Int
  state : Trend
deriving DecidableEq, Repr

/-- `Streak.__init__`: both counters 0, trend neutral. -/
def Streak.init : Streak := ⟨0, 0, .neutral⟩

/-- Step 1 of `Streak.update`: bucket the incoming score. -/
def bucket (st : Streak) (score : Int) : Streak :=
  if POS_THRESH ≤ score then ⟨st.pos + 1, 0, st.state⟩
  else if score ≤ NEG_THRESH then ⟨0, st.neg + 1, st.state⟩
  else ⟨0, 0, st.state⟩

/-- Step 2: sustained good streak notification. -/
def ruleSustainedGood (st : Streak) : Streak × List Notif :=
  if st.pos = STREAK_LEN ∧ st.state ≠ Trend.good then
    (⟨st.pos, st.neg, Trend.good⟩, [Notif.sustainedGood])
  else (st, [])

/-- Step 3: sustained bad streak notification. -/
def ruleSustainedBad (st : Streak) (sentence reason : String) : Streak × List Notif :=
  if st.neg = STREAK_LEN ∧ st.state ≠ Trend.bad then
    (⟨st.pos, st.neg, Trend.bad⟩, [Notif.sustainedBad sentence reason])
  else (st, [])

/-- Step 4: good trend broken by one bad score. -/
def ruleGoodBroken (st : Streak) : Streak × List Notif :=
  if st.state = Trend.good ∧ st.neg = 1 then
    (⟨st.pos, st.neg, Trend.neutral⟩, [Notif.goodBroken])
  else (st, [])

/-- Step 5: bad trend reversed by one good score. -/
def ruleBadReversed (st : Streak) : Streak × List Notif :=
  if st.state = Trend.bad ∧ st.pos = 1 then
    (⟨st.pos, st.neg, Trend.neutral⟩, [Notif.badReversed])
  else (st, [])

/-- Steps 2 to 5 of `Streak.update`, applied in the source's order to the
bucketed state; the notifications are collected in firing order. -/
def applyRules (st1 : Streak) (sentence reason : String) : Streak × List Notif :=
  let r2 := ruleSustainedGood st1
  let r3 := ruleSustainedBad r2.1 sentence reason
  let r4 := ruleGoodBroken r3.1
  let r5 := ruleBadReversed r4.1
  (r5.1, r2.2 ++ r3.2 ++ r4.2 ++ r5.2)

/-- `Streak.update(score, sentence, reason)`: the five blocks of the
source, in order; the result pairs the new state with the notifications
fired during the call, in firing order. -/
def Streak.update (st : Streak) (score : Int) (sentence reason : String) :
    Streak × List Notif :=
  applyRules (bucket st score) sentence reason

/-- Run the tracker over a list of `(score, sentence, reason)` events,
collecting the notification list of each update. -/
def runStreak (st : Streak) : List (Int × String × String) → Streak × List (List Notif)
  | [] => (st, [])
  | e :: rest =>
      let step := st.update e.1 e.2.1 e.2.2
      let tail := runStreak step.1 rest
      (tail.1, step.2 :: tail.2)

/-! ## Drivers -/

/-- Python `str(x)` on a classification scalar. -/
def cvalStr : CVal → String
  | .s v => v
  | .i n => toString n

/-- `res["score"]` as consumed by `streak.update`: KeyError when absent,
TypeError when the subsequent `>=` comparison meets a non-int. -/
def resScore (res : ClsDict) : Except String Int :=
  match dget res "score" with
  | some (.i n) => .ok n
  | some (.s _) => .error "TypeError"
  | none => .error "KeyError"

/-- `res["reason"]`: KeyError when absent. -/
def resReason (res : ClsDict) : Except String CVal :=
  match dget res "reason" with
  | some v => .ok v
  | none => .error "KeyError"

/-- One enriched output row of batch mode: the original columns plus the
three trailing `ai_*` fields. -/
structure Enriched where
  row : Row
  ai_category : CVal
  ai_score : CVal
  ai_reason : CVal
deriving DecidableEq, Repr

/-- `row["ai_category"], row["ai_score"], row["ai_reason"] = res.values()`:
the three values are unpacked positionally, in the dict's insertion
order; ValueError when the dict does not have exactly three entries. -/
def enrich (row : Row) (res : ClsDict) : Except String Enriched :=
  match dvalues res with
  | [a, b, c] => .ok ⟨row, a, b, c⟩
  | _ => .error "ValueError"

/-- Batch mode `process` (evaluator.py): every row of the frame is mapped
to a sentence, classified, enriched and fed to the tracker; no row is
skipped.  Returns the enriched rows, final cache and final tracker state. -/
def processBatch (llm : String → Except String ClsDict) :
    List Row → Cache → Streak → Except String (List Enriched × Cache × Streak)
  | [], cache, st => .ok ([], cache, st)
  | row :: rest, cache, st =>
      match sentence_from_row row with
      | .error e => .error e
      | .ok sent =>
          let r := classify cache sent (llm sent)
          match enrich row r.1 with
          | .error e => .error e
          | .ok en =>
              match resScore r.1 with
              | .error e => .error e
              | .ok sc =>
                  match resReason r.1 with
                  | .error e => .error e
                  | .ok rsn =>
                      let u := st.update sc sent (cvalStr rsn)
                      match processBatch llm rest r.2.1 u.1 with
                      | .error e => .error e
                      | .ok t => .ok (en :: t.1, t.2.1, t.2.2)

/-- Live tail mode `evaluate_live` (both.py), restricted to a finite batch
of newly appended rows: a row whose `timestamp` field equals the literal
string "timestamp" is skipped before the pipeline; every other row is
mapped, classified and fed to the tracker.  Returns the sentences passed
into the pipeline, the final cache and the final tracker state. -/
def evaluateLive (llm : String → Except String ClsDict) :
    List Row → Cache → Streak → Except String (List String × Cache × Streak)
  | [], cache, st => .ok ([], cache, st)
  | row :: rest, cache, st =>
      if row.timestamp = "timestamp" then evaluateLive llm rest cache st
      else
        match sentence_from_row row with
        | .error e => .error e
        | .ok sent =>
            let r := classify cache sent (llm sent)
            match resScore r.1 with
            | .error e => .error e
            | .ok sc =>
                match resReason r.1 with
                | .error e => .error e
                | .ok rsn =>
                    let u := st.update sc sent (cvalStr rsn)
                    match evaluateLive llm rest r.2.1 u.1 with
                    | .error e => .error e
                    | .ok t => .ok (sent :: t.1, t.2.1, t.2.2)

/-! ## Spec-side definitions for refinement claims -/

/-- `details` up to the first pipe, after the spec's words. -/
def field0 (d : String) : String := pySplitHead d

/-- Modelled from the spec: the Sentence Mapper rules of section 4.1,
written from the spec's words for comparison with `sentence_from_row`. -/
def mapperSpec (e d : String) : String :=
  if pyStartsWith e "browser_tab" then "Visited \"" ++ field0 d ++ "\" in browser"
  else if pyStartsWith e "app_switch" then "Switched to " ++ pyTrim (field0 d)
  else if pyStartsWith e "app_usage" then "Used " ++ pyTrim (field0 d)
  else e

/-- The StreakState invariant of the data model: both counters
non-negative and never simultaneously positive. -/
def StreakInv (st : Streak) : Prop :=
  0 ≤ st.pos ∧ 0 ≤ st.neg ∧ (st.pos = 0 ∨ st.neg = 0)

/-! ## Concrete fixtures -/

/-- A stubbed classification-service outcome: the call always raises. -/
def llmDown : String → Except String ClsDict := fun _ => .error "ConnectionError"

/-- A stray header row, as produced by re-concatenated logs. -/
def hdrRow : Row := ⟨"timestamp", "event", .pstr "details"⟩

/-- A stubbed service whose JSON object carries its fields in the order
score, category, reason. -/
def llmReordered : String → Except String ClsDict :=
  fun _ => .ok [("score", .i 5), ("category", .s "deep_work"), ("reason", .s "ok")]

/-- A stubbed service whose JSON object carries the canonical field order
category, score, reason. -/
def llmCanon : String → Except String ClsDict :=
  fun _ => .ok [("category", .s "deep_work"), ("score", .i 5), ("reason", .s "focus")]

/-- An ordinary app-usage row. -/
def rowUsage : Row := ⟨"2025-01-01T00:00:00", "app_usage", .pstr "Writer|900"⟩

/-! ## Helper instances and lemmas -/

instance {ε α : Type} [DecidableEq ε] [DecidableEq α] : DecidableEq (Except ε α) := fun a b =>
  match a, b with
  | Except.ok x, Except.ok y => decidable_of_iff (x = y) (by simp)
  | Except.ok _, Except.error _ => Decidable.isFalse (by simp)
  | Except.error _, Except.ok _ => Decidable.isFalse (by simp)
  | Except.error x, Except.error y => decidable_of_iff (x = y) (by simp)

/-- Rule 2 only changes the trend, never the counters. -/
theorem ruleSustainedGood_counters (st : Streak) :
    (ruleSustainedGood st).1.pos = st.pos ∧ (ruleSustainedGood st).1.neg = st.neg := by
  unfold ruleSustainedGood; split_ifs <;> simp

/-- Rule 3 only changes the trend, never the counters. -/
theorem ruleSustainedBad_counters (st : Streak) (a b : String) :
    (ruleSustainedBad st a b).1.pos = st.pos ∧ (ruleSustainedBad st a b).1.neg = st.neg := by
  unfold ruleSustainedBad; split_ifs <;> simp

/-- Rule 4 only changes the trend, never the counters. -/
theorem ruleGoodBroken_counters (st : Streak) :
    (ruleGoodBroken st).1.pos = st.pos ∧ (ruleGoodBroken st).1.neg = st.neg := by
  unfold ruleGoodBroken; split_ifs <;> simp

/-- Rule 5 only changes the trend, never the counters. -/
theorem ruleBadReversed_counters (st : Streak) :
    (ruleBadReversed st).1.pos = st.pos ∧ (ruleBadReversed st).1.neg = st.neg := by
  unfold ruleBadReversed; split_ifs <;> simp

/-- The notification rules leave both counters exactly as bucketing left
them. -/
theorem applyRules_counters (st1 : Streak) (a b : String) :
    ((applyRules st1 a b).1).pos = st1.pos ∧ ((applyRules st1 a b).1).neg = st1.neg := by
  unfold applyRules
  constructor
  · rw [(ruleBadReversed_counters _).1, (ruleGoodBroken_counters _).1,
      (ruleSustainedBad_counters _ a b).1, (ruleSustainedGood_counters _).1]
  · rw [(ruleBadReversed_counters _).2, (ruleGoodBroken_counters _).2,
      (ruleSustainedBad_counters _ a b).2, (ruleSustainedGood_counters _).2]

/-- After bucketing, at least one counter is zero. -/
theorem bucket_counter_zero (st : Streak) (score : Int) :
    (bucket st score).pos = 0 ∨ (bucket st score).neg = 0 := by
  unfold bucket; split_ifs <;> simp

/-- When the good counter is zero, the rules fire at most one
notification. -/
theorem applyRules_len_of_pos_zero (n : Int) (t : Trend) (a b : String) :
    ((applyRules ⟨0, n, t⟩ a b).2).length ≤ 1 := by
  unfold applyRules ruleSustainedGood ruleSustainedBad ruleGoodBroken ruleBadReversed
  norm_num [STREAK_LEN]
  by_cases h3 : n = 3 ∧ ¬t = Trend.bad
  · simp [h3]
  · simp only [h3, if_false]
    by_cases h4 : t = Trend.good ∧ n = 1
    · simp [h4]
    · simp [h4]

/-- When the bad counter is zero, the rules fire at most one
notification. -/
theorem applyRules_len_of_neg_zero (p : Int) (t : Trend) (a b : String) :
    ((applyRules ⟨p, 0, t⟩ a b).2).length ≤ 1 := by
  unfold applyRules ruleSustainedGood ruleSustainedBad ruleGoodBroken ruleBadReversed
  by_cases h2 : p = STREAK_LEN ∧ ¬t = Trend.good
  · simp [h2, STREAK_LEN]
  · simp only [h2, if_false]
    norm_num [STREAK_LEN]
    by_cases h5 : t = Trend.bad ∧ p = 1
    · simp [h5]
    · simp [h5]

/-- A single update fires at most one notification, from any state. -/
theorem notif_count_le_one (st : Streak) (score : Int) (a b : String) :
    ((st.update score a b).2).length ≤ 1 := by
  have h := bucket_counter_zero st score
  show ((applyRules (bucket st score) a b).2).length ≤ 1
  rcases h with h | h
  · have : bucket st score = ⟨0, (bucket st score).neg, (bucket st score).state⟩ := by
      cases hb : bucket st score
      simp_all
    rw [this]
    exact applyRules_len_of_pos_zero _ _ a b
  · have : bucket st score = ⟨(bucket st score).pos, 0, (bucket st score).state⟩ := by
      cases hb : bucket st score
      simp_all
    rw [this]
    exact applyRules_len_of_neg_zero _ _ a b

/-- The invariant is preserved by a single update. -/
theorem streakInv_update (st : Streak) (score : Int) (a b : String) (h : StreakInv st) :
    StreakInv (st.update score a b).1 := by
  obtain ⟨h1, h2, _⟩ := h
  have hc := applyRules_counters (bucket st score) a b
  show StreakInv (applyRules (bucket st score) a b).1
  unfold StreakInv
  rw [hc.1, hc.2]
  unfold bucket
  split_ifs <;> constructor <;> simp <;> omega

/-- A score at or above the positive threshold increments the good
counter and zeroes the bad counter before the rules run. -/
theorem update_good_step (st : Streak) (score : Int) (a b : String) (h : POS_THRESH ≤ score) :
    st.update score a b = applyRules ⟨st.pos + 1, 0, st.state⟩ a b := by
  show applyRules (bucket st score) a b = _
  rw [bucket, if_pos h]

/-- C6: for every StreakState, an update with score 0 (the fallback
score) resets both counters to 0, emits no notification and leaves the
trend unchanged. -/
theorem fallback_score_resets_without_notification (st : Streak) (sentence reason : String) :
    st.update 0 sentence reason = (⟨0, 0, st.state⟩, []) := by
  show applyRules (bucket st 0) sentence reason = _
  have hb : bucket st 0 = ⟨0, 0, st.state⟩ := by
    norm_num [bucket, POS_THRESH, NEG_THRESH]
  rw [hb]
  norm_num [applyRules, ruleSustainedGood, ruleSustainedBad, ruleGoodBroken, ruleBadReversed,
    STREAK_LEN]

/-- C1: from the initial state, three consecutive scores each at least 4
drive the trend from neutral to good and fire exactly one
positive-streak notification, on the third update and not before. -/
theorem streak_promotion_on_third (s1 s2 s3 : Int) (a1 b1 a2 b2 a3 b3 : String)
    (h1 : 4 ≤ s1) (h2 : 4 ≤ s2) (h3 : 4 ≤ s3) :
    (runStreak Streak.init [(s1, a1, b1), (s2, a2, b2), (s3, a3, b3)]).1.state = Trend.good ∧
      (runStreak Streak.init [(s1, a1, b1), (s2, a2, b2), (s3, a3, b3)]).2 =
        [[], [], [Notif.sustainedGood]] := by
  have u1 : Streak.init.update s1 a1 b1 = (⟨1, 0, Trend.neutral⟩, []) := by
    rw [update_good_step _ _ _ _ h1]; rfl
  have u2 : (⟨1, 0, Trend.neutral⟩ : Streak).update s2 a2 b2 = (⟨2, 0, Trend.neutral⟩, []) := by
    rw [update_good_step _ _ _ _ h2]; rfl
  have u3 : (⟨2, 0, Trend.neutral⟩ : Streak).update s3 a3 b3 =
      (⟨3, 0, Trend.good⟩, [Notif.sustainedGood]) := by
    rw [update_good_step _ _ _ _ h3]; rfl
  simp [runStreak, u1, u2, u3]

/-- C1 witness: the concrete run 5, 4, 7 promotes on the third event with
a single notification. -/
theorem streak_promotion_on_third_witness :
    (runStreak Streak.init [((5 : Int), "a", "b"), (4, "c", "d"), (7, "e", "f")]).1.state =
        Trend.good ∧
      (runStreak Streak.init [((5 : Int), "a", "b"), (4, "c", "d"), (7, "e", "f")]).2 =
        [[], [], [Notif.sustainedGood]] :=
  streak_promotion_on_third 5 4 7 "a" "b" "c" "d" "e" "f" (by norm_num) (by norm_num)
    (by norm_num)

/-- C9: from the initial state, after any sequence of updates both
counters are non-negative and at least one of them is zero, and any
single update emits at most one notification. -/
theorem streak_invariant_and_single_notification (events : List (Int × String × String)) :
    StreakInv (runStreak Streak.init events).1 ∧
      ∀ (st : Streak) (score : Int) (a b : String),
        ((st.update score a b).2).length ≤ 1 := by
  constructor
  · have key : ∀ (evs : List (Int × String × String)) (st : Streak),
        StreakInv st → StreakInv (runStreak st evs).1 := by
      intro evs
      induction evs with
      | nil => intro st h; exact h
      | cons e rest ih =>
          intro st h
          simp only [runStreak]
          exact ih _ (streakInv_update st e.1 e.2.1 e.2.2 h)
    exact key events Streak.init ⟨le_refl 0, le_refl 0, Or.inl rfl⟩
  · intro st score a b
    exact notif_count_le_one st score a b

/-- C8: for every RawEvent with string details the mapper realizes the
spec rules first-match-wins by event-kind: browser_tab, app_switch and
app_usage produce their templated sentences over the first
pipe-delimited field, and any other event kind is returned unchanged. -/
theorem mapper_matches_spec_rules (ts e d : String) :
    sentence_from_row ⟨ts, e, PyVal.pstr d⟩ = Except.ok (mapperSpec e d) := by
  simp only [sentence_from_row, mapperSpec, first_clause, pyStrip, pyFormat, field0]
  split_ifs <;> rfl

/-- C7 counterexample: an app_switch row whose details field is a missing
value makes the mapper raise AttributeError at the trim step instead of
returning a sentence. -/
theorem mapper_raises_on_nonstring_app_switch :
    sentence_from_row ⟨"2025-01-01T00:00:00", "app_switch", PyVal.pnan⟩ =
      Except.error "AttributeError" := rfl

/-- C7 amended: the mapper returns without raising whenever details is a
string, and for browser_tab rows and rows matching no known event kind
even when details is missing; the first-field extraction itself returns a
non-string unchanged.  (app_switch and app_usage rows with non-string
details raise AttributeError at the trim step.) -/
theorem mapper_totality_cases (row : Row) :
    ((∃ s, row.details = PyVal.pstr s) → (sentence_from_row row).isOk = true) ∧
      (pyStartsWith row.event "browser_tab" = true → (sentence_from_row row).isOk = true) ∧
      (pyStartsWith row.event "app_switch" = false →
        pyStartsWith row.event "app_usage" = false → (sentence_from_row row).isOk = true) ∧
      first_clause PyVal.pnan = PyVal.pnan := by
  obtain ⟨ts, e, d⟩ := row
  refine ⟨?_, ?_, ?_, rfl⟩
  · rintro ⟨s, rfl⟩
    simp only [sentence_from_row]
    split_ifs <;> rfl
  · intro hb
    simp only [sentence_from_row, hb]
    rfl
  · intro h1 h2
    simp only at h1 h2
    simp only [sentence_from_row, h1, h2]
    split_ifs <;> first | rfl | simp_all

/-- C7 amended witness: a concrete app_switch row with string details maps
without raising. -/
theorem mapper_totality_cases_witness :
    (sentence_from_row ⟨"t", "app_switch", PyVal.pstr " X |1"⟩).isOk = true :=
  (mapper_totality_cases ⟨"t", "app_switch", PyVal.pstr " X |1"⟩).1 ⟨" X |1", rfl⟩

/-- C3: classify never raises to its caller: every path of the
exception-monad embedding returns normally; a failed service call on an
uncached sentence yields exactly the fallback classification, a cache hit
returns the stored value, and a successful call on a miss returns and
stores the service result. -/
theorem classify_never_raises (cache : Cache) (s : String) (llm : Except String ClsDict)
    (err : String) :
    (classifyE cache s llm).isOk = true ∧
      (cacheLookup cache s = none →
        classifyE cache s (Except.error err) =
          Except.ok (fallbackCls, (s, fallbackCls) :: cache, true)) ∧
      (∀ v, cacheLookup cache s = some v →
        classifyE cache s llm = Except.ok (v, cache, false)) ∧
      (∀ r, cacheLookup cache s = none →
        classifyE cache s (Except.ok r) = Except.ok (r, (s, r) :: cache, true)) := by
  refine ⟨?_, ?_, ?_, ?_⟩
  · unfold classifyE
    cases h : cacheLookup cache s <;> cases llm <;> simp [Except.isOk, Except.toBool]
  · intro h
    simp [classifyE, h]
  · intro v h
    simp [classifyE, h]
  · intro r h
    simp [classifyE, h]

/-- C3 witness: on the empty cache with a failing service call, classify
returns normally with the fallback classification. -/
theorem classify_never_raises_witness :
    cacheLookup [] "x" = none ∧
      classifyE [] "x" (Except.error "boom") =
        Except.ok (fallbackCls, [("x", fallbackCls)], true) :=
  ⟨rfl, (classify_never_raises [] "x" (Except.error "boom") "boom").2.1 rfl⟩

/-- C5: on an uncached sentence, the first get_or_compute invokes compute
and persists its result under the sentence's key; a second call with any
other compute function returns the first result unchanged, leaves the
cache unchanged and does not invoke compute. -/
theorem cache_second_call_hits (cache : Cache) (s : String) (f1 f2 : Unit → ClsDict)
    (hmiss : cacheLookup cache s = none) :
    get_or_compute cache s f1 = (f1 (), (s, f1 ()) :: cache, true) ∧
      cacheLookup ((s, f1 ()) :: cache) s = some (f1 ()) ∧
      get_or_compute ((s, f1 ()) :: cache) s f2 = (f1 (), (s, f1 ()) :: cache, false) := by
  have hl : cacheLookup ((s, f1 ()) :: cache) s = some (f1 ()) := by
    simp [cacheLookup, List.find?]
  exact ⟨by simp [get_or_compute, hmiss], hl, by simp [get_or_compute, hl]⟩

/-- C5 witness: two concrete calls with compute stubs returning different
classifications; the second returns the first's result with compute not
invoked. -/
theorem cache_second_call_hits_witness :
    get_or_compute [] "x" (fun _ => [("category", CVal.s "a")]) =
        ([("category", CVal.s "a")], [("x", [("category", CVal.s "a")])], true) ∧
      get_or_compute [("x", [("category", CVal.s "a")])] "x"
          (fun _ => [("category", CVal.s "b")]) =
        ([("category", CVal.s "a")], [("x", [("category", CVal.s "a")])], false) := by
  have h := cache_second_call_hits [] "x" (fun _ => [("category", CVal.s "a")])
    (fun _ => [("category", CVal.s "b")]) rfl
  exact ⟨h.1, h.2.2⟩

/-- C10: a failed service call on an uncached sentence persists the
fallback classification under the sentence's key, and every later
classify call that finds the fallback cached returns it without
attempting the service call. -/
theorem llm_failure_fallback_cached (cache : Cache) (s err : String)
    (llm2 : Except String ClsDict) (hmiss : cacheLookup cache s = none) :
    classify cache s (Except.error err) = (fallbackCls, (s, fallbackCls) :: cache, true) ∧
      cacheLookup ((s, fallbackCls) :: cache) s = some fallbackCls ∧
      (∀ cache2 : Cache, cacheLookup cache2 s = some fallbackCls →
        classify cache2 s llm2 = (fallbackCls, cache2, false)) := by
  refine ⟨by simp [classify, hmiss], by simp [cacheLookup, List.find?], ?_⟩
  intro cache2 h2
  simp [classify, h2]

/-- C10 witness: concrete failure on the empty cache, then a hit that
skips the service even though it would now succeed. -/
theorem llm_failure_fallback_cached_witness :
    classify [] "x" (Except.error "down") = (fallbackCls, [("x", fallbackCls)], true) ∧
      classify [("x", fallbackCls)] "x" (Except.ok [("category", CVal.s "a")]) =
        (fallbackCls, [("x", fallbackCls)], false) := by
  have h := llm_failure_fallback_cached [] "x" "down"
    (Except.ok [("category", CVal.s "a")]) rfl
  exact ⟨h.1, h.2.2 [("x", fallbackCls)] h.2.1⟩

/-- C2 counterexample: batch mode has no header-row check; a row whose
timestamp field is the literal string "timestamp" is mapped, classified
and enriched like any other row, and appears in the enriched output. -/
theorem batch_processes_header_row :
    processBatch llmDown [hdrRow] [] Streak.init =
      Except.ok ([⟨hdrRow, CVal.s "unknown", CVal.i 0, CVal.s "llm_error"⟩],
        [("event", fallbackCls)], ⟨0, 0, Trend.neutral⟩) := rfl

/-- C2 amended: in live tail mode a row whose timestamp field equals the
literal string "timestamp" is skipped before the pipeline: processing the
tail with or without it is identical.  (Batch mode performs no such
check; see the counterexample.) -/
theorem live_skips_header_rows (r : Row) (hr : r.timestamp = "timestamp") (rest : List Row)
    (llm : String → Except String ClsDict) (cache : Cache) (st : Streak) :
    evaluateLive llm (r :: rest) cache st = evaluateLive llm rest cache st := by
  simp only [evaluateLive, hr, if_pos]

/-- C2 amended witness: a concrete header row ahead of an ordinary row is
skipped by the live tail. -/
theorem live_skips_header_rows_witness :
    evaluateLive llmDown [hdrRow, rowUsage] [] Streak.init =
      evaluateLive llmDown [rowUsage] [] Streak.init :=
  live_skips_header_rows hdrRow rfl [rowUsage] llmDown [] Streak.init

/-- C4 counterexample: the three trailing fields are bound positionally
from the dict's value order, so a classification whose fields arrive in
the order score, category, reason puts the score into ai_category; the
dict's category field is "deep_work" but ai_category is the integer 5. -/
theorem batch_misassigns_on_reordered_fields :
    processBatch llmReordered [rowUsage] [] Streak.init =
        Except.ok ([⟨rowUsage, CVal.i 5, CVal.s "deep_work", CVal.s "ok"⟩],
          [("Used Writer", [("score", CVal.i 5), ("category", CVal.s "deep_work"),
            ("reason", CVal.s "ok")])], ⟨1, 0, Trend.neutral⟩) ∧
      dget [("score", CVal.i 5), ("category", CVal.s "deep_work"), ("reason", CVal.s "ok")]
          "category" = some (CVal.s "deep_work") ∧
      CVal.i 5 ≠ CVal.s "deep_work" :=
  ⟨rfl, rfl, by decide⟩

/-- C4 amended: when the classification dict carries its fields in the
canonical insertion order category, score, reason, the batch output row
is the original row followed by ai_category, ai_score, ai_reason equal to
those three fields; in general the trailing fields are the dict's values
in insertion order. -/
theorem batch_enrich_canonical_order (row : Row) (rest : List Row) (cache : Cache)
    (st : Streak) (llm : String → Except String ClsDict) (sent : String) (cat rsn : CVal)
    (n : Int) (hs : sentence_from_row row = Except.ok sent)
    (hc : (classify cache sent (llm sent)).1 =
      [("category", cat), ("score", CVal.i n), ("reason", rsn)]) :
    processBatch llm (row :: rest) cache st =
      match processBatch llm rest (classify cache sent (llm sent)).2.1
          (st.update n sent (cvalStr rsn)).1 with
      | Except.error e => Except.error e
      | Except.ok t => Except.ok (⟨row, cat, CVal.i n, rsn⟩ :: t.1, t.2.1, t.2.2) := by
  have he : enrich row [("category", cat), ("score", CVal.i n), ("reason", rsn)] =
      Except.ok ⟨row, cat, CVal.i n, rsn⟩ := rfl
  have h1 : resScore [("category", cat), ("score", CVal.i n), ("reason", rsn)] =
      Except.ok n := rfl
  have h2 : resReason [("category", cat), ("score", CVal.i n), ("reason", rsn)] =
      Except.ok rsn := rfl
  simp only [processBatch, hs, hc, he, h1, h2]

/-- C4 amended witness: a concrete row with a canonical-order service
response is enriched with the category, score and reason fields in their
named places. -/
theorem batch_enrich_canonical_order_witness :
    processBatch llmCanon [rowUsage] [] Streak.init =
      match processBatch llmCanon ([] : List Row)
          (classify [] "Used Writer" (llmCanon "Used Writer")).2.1
          ((Streak.init.update 5 "Used Writer" (cvalStr (CVal.s "focus"))).1) with
      | Except.error e => Except.error e
      | Except.ok t =>
          Except.ok (⟨rowUsage, CVal.s "deep_work", CVal.i 5, CVal.s "focus"⟩ :: t.1,
            t.2.1, t.2.2) :=
  batch_enrich_canonical_order rowUsage [] [] Streak.init llmCanon "Used Writer"
    (CVal.s "deep_work") (CVal.s "focus") 5 rfl rfl
